import Mathlib

/-!
Verification of the OTA agent OS-port layer and job-document data model.

The embedding covers three source files:
  - the V1.2.0 FreeRTOS OS port (event queue, two one-shot timers indexed by
    a timer id, stop and delete operations) -- namespace `V1`;
  - the POSIX OS port (message queue `mq_*`, a single `timer_t` armed with
    `timer_settime`) -- namespace `Posix`;
  - the V2-style FreeRTOS OS port under source/portable -- namespace `Portable`.
plus the agent private header (ingest results, document parse errors, the
document model and its parameter descriptors).

Machine integers are modelled as `Nat`; the 32-bit received/required bitmaps
are `Nat` values whose bits are read with `Nat.testBit`.  Kernel objects
(queues, timers) are modelled as explicit state records, and a blocking call
is a function returning `Option`, with `none` standing for the caller staying
suspended.  Operations of the underlying kernels (queue create, timer create,
write of a block, signature check) are assumed to succeed unless the port
itself decides the outcome; where a collaborator can fail, the model takes the
outcome as an explicit boolean argument.
-/

/-- Error codes of the V1.2.0 port (`OtaErr_t` values used by the port). -/
inductive OtaErr where
  | OTA_ERR_NONE
  | OTA_ERR_UNINITIALIZED
  | OTA_ERR_EVENT_Q_CREATE_FAILED
  | OTA_ERR_EVENT_Q_SEND_FAILED
  | OTA_ERR_EVENT_Q_RECEIVE_FAILED
  | OTA_ERR_EVENT_TIMER_CREATE_FAILED
  | OTA_ERR_EVENT_TIMER_START_FAILED
  | OTA_ERR_EVENT_TIMER_RESTART_FAILED
  | OTA_ERR_EVENT_TIMER_STOP_FAILED
  | OTA_ERR_EVENT_TIMER_DELETE_FAILED
  deriving DecidableEq, Repr

/-- Status codes of the V2-style ports (`OtaOsStatus_t`). -/
inductive OtaOsStatus where
  | OtaOsSuccess
  | OtaOsEventQueueCreateFailed
  | OtaOsEventQueueSendFailed
  | OtaOsEventQueueReceiveFailed
  | OtaOsEventQueueDeleteFailed
  | OtaOsTimerCreateFailed
  | OtaOsTimerStartFailed
  | OtaOsTimerRestartFailed
  | OtaOsTimerStopFailed
  | OtaOsTimerDeleteFailed
  deriving DecidableEq, Repr

/-- `OtaEventMsg_t`: the fixed-size message stored by value in the event
queues (an event id and an optional pointer to a data buffer, the pointer
modelled as a `Nat`).  The queues copy `MAX_MSG_SIZE = sizeof(OtaEventMsg_t)`
bytes on send and on receive; copying the full fixed-size record is modelled
as copying the value. -/
structure OtaEventMsg where
  eventId : Nat
  pEventData : Option Nat
  deriving DecidableEq, Repr

/-- `MAX_MESSAGES` of all three port files: the declared queue depth, and the
size (in messages) of the static `queueData` backing array of the FreeRTOS
ports. -/
def MAX_MESSAGES : Nat := 10

/-- `OTA_NUM_MSG_Q_ENTRIES` of ota_private.h: defaults to 20 when
`configOTA_NUM_MSG_Q_ENTRIES` is not configured. -/
def OTA_NUM_MSG_Q_ENTRIES : Nat := 20

/-- A FreeRTOS queue: a bounded FIFO of fixed-size messages.  `messages`
lists the queued items, oldest first. -/
structure FreeRTOSQueue where
  capacity : Nat
  messages : List OtaEventMsg
  deriving DecidableEq, Repr

/-- `xQueueCreateStatic(len, itemSize, buffer, ctrl)`: a fresh empty queue of
the requested length.  (Static creation cannot fail for a non-null buffer.) -/
def xQueueCreateStatic (len : Nat) : FreeRTOSQueue :=
  { capacity := len, messages := [] }

/-- `xQueueSendToBack(q, item, 0)`: with a zero tick wait this returns
immediately; `true` and the item appended when there is room, `false` and the
queue unchanged when the queue is full. -/
def xQueueSendToBack (q : FreeRTOSQueue) (m : OtaEventMsg) : Bool × FreeRTOSQueue :=
  if q.messages.length < q.capacity then
    (true, { q with messages := q.messages ++ [m] })
  else
    (false, q)

/-- `xQueueReceive(q, buf, portMAX_DELAY)`: returns the oldest message, or
keeps the caller suspended (`none`) while the queue is empty. -/
def xQueueReceive (q : FreeRTOSQueue) : Option (OtaEventMsg × FreeRTOSQueue) :=
  match q.messages with
  | [] => none
  | m :: rest => some (m, { q with messages := rest })

namespace V1

/-- `OtaInitEvent_FreeRTOS` of the V1.2.0 port: creates the static queue with
`MAX_MESSAGES` (10) entries of size `MAX_MSG_SIZE`. -/
def OtaInitEvent_FreeRTOS : FreeRTOSQueue :=
  xQueueCreateStatic MAX_MESSAGES

/-- `OtaSendEvent_FreeRTOS`: sends to the back of the queue with a zero tick
wait; `OTA_ERR_NONE` on success, `OTA_ERR_EVENT_Q_SEND_FAILED` when the queue
rejects the message. -/
def OtaSendEvent_FreeRTOS (q : FreeRTOSQueue) (m : OtaEventMsg) :
    OtaErr × FreeRTOSQueue :=
  match xQueueSendToBack q m with
  | (true, q2) => (OtaErr.OTA_ERR_NONE, q2)
  | (false, q2) => (OtaErr.OTA_ERR_EVENT_Q_SEND_FAILED, q2)

/-- `OtaReceiveEvent_FreeRTOS`: blocks on `xQueueReceive` with
`portMAX_DELAY`, then copies the `MAX_MSG_SIZE` bytes of the dequeued record
out through a temporary buffer and returns `OTA_ERR_NONE`.  `none` stands for
the caller still waiting on an empty queue. -/
def OtaReceiveEvent_FreeRTOS (q : FreeRTOSQueue) :
    Option (OtaErr × OtaEventMsg × FreeRTOSQueue) :=
  match xQueueReceive q with
  | some (m, q2) => some (OtaErr.OTA_ERR_NONE, m, q2)
  | none => none

/-- Sends the listed messages in order, collecting the returned codes. -/
def sendList (q : FreeRTOSQueue) : List OtaEventMsg → List OtaErr × FreeRTOSQueue
  | [] => ([], q)
  | m :: ms =>
    match OtaSendEvent_FreeRTOS q m with
    | (e, q2) =>
      match sendList q2 ms with
      | (es, q3) => (e :: es, q3)

/-- Receives `n` messages in order; `none` when a receive stays blocked. -/
def drainN (q : FreeRTOSQueue) : Nat → Option (List OtaEventMsg × FreeRTOSQueue)
  | 0 => some ([], q)
  | n + 1 =>
    match OtaReceiveEvent_FreeRTOS q with
    | some (_, m, q2) =>
      match drainN q2 n with
      | some (ms, q3) => some (m :: ms, q3)
      | none => none
    | none => none

end V1

namespace Portable

/-- `OtaInitEvent_FreeRTOS` of source/portable/ota_os_freertos.c: creates the
static queue with `OTA_NUM_MSG_Q_ENTRIES` entries, although the static
`queueData` backing array it hands to `xQueueCreateStatic` still has only
`MAX_MESSAGES` (10) entries. -/
def OtaInitEvent_FreeRTOS : FreeRTOSQueue :=
  xQueueCreateStatic OTA_NUM_MSG_Q_ENTRIES

/-- `OtaSendEvent_FreeRTOS` of source/portable: zero tick wait,
`OtaOsSuccess` on success, `OtaOsEventQueueSendFailed` on a full queue. -/
def OtaSendEvent_FreeRTOS (q : FreeRTOSQueue) (m : OtaEventMsg) :
    OtaOsStatus × FreeRTOSQueue :=
  match xQueueSendToBack q m with
  | (true, q2) => (OtaOsStatus.OtaOsSuccess, q2)
  | (false, q2) => (OtaOsStatus.OtaOsEventQueueSendFailed, q2)

/-- Sends the same message `n` times in a row, collecting the codes. -/
def sendRepeat (q : FreeRTOSQueue) (m : OtaEventMsg) : Nat → List OtaOsStatus × FreeRTOSQueue
  | 0 => ([], q)
  | n + 1 =>
    match OtaSendEvent_FreeRTOS q m with
    | (e, q2) =>
      match sendRepeat q2 m n with
      | (es, q3) => (e :: es, q3)

end Portable

/-- A POSIX message queue descriptor state: depth `mq_maxmsg`, the
`O_NONBLOCK` status flag, and the queued messages (all sent at priority 0, so
delivery order is FIFO). -/
structure PosixMq where
  mq_maxmsg : Nat
  nonblock : Bool
  messages : List OtaEventMsg
  deriving DecidableEq, Repr

/-- Outcome of `mq_send`: the message enqueued, an immediate `EAGAIN` failure
(only when `O_NONBLOCK` is set), or the caller blocked on a full queue. -/
inductive MqSendOutcome where
  | sent (q : PosixMq)
  | eagain
  | blocked
  deriving DecidableEq, Repr

/-- `mq_send(q, msg, MAX_MSG_SIZE, 0)`: appends when there is room; on a full
queue it fails with `EAGAIN` if `O_NONBLOCK` is set and otherwise blocks
until room is available. -/
def mq_send (q : PosixMq) (m : OtaEventMsg) : MqSendOutcome :=
  if q.messages.length < q.mq_maxmsg then
    MqSendOutcome.sent { q with messages := q.messages ++ [m] }
  else if q.nonblock then
    MqSendOutcome.eagain
  else
    MqSendOutcome.blocked

/-- `mq_receive`: returns the oldest message, or blocks (`none`) while the
queue is empty (the descriptor is opened without `O_NONBLOCK`). -/
def mq_receive (q : PosixMq) : Option (OtaEventMsg × PosixMq) :=
  match q.messages with
  | [] => none
  | m :: rest => some (m, { q with messages := rest })

namespace Posix

/-- `Posix_OtaInitEvent`: unlinks any stale queue and opens `/otaqueue` with
`O_CREAT | O_RDWR` (no `O_NONBLOCK`), `mq_maxmsg = MAX_MESSAGES`,
`mq_msgsize = MAX_MSG_SIZE` and `mq_flags = 0`. -/
def Posix_OtaInitEvent : PosixMq :=
  { mq_maxmsg := MAX_MESSAGES, nonblock := false, messages := [] }

/-- `Posix_OtaSendEvent`: one `mq_send`; `OtaOsSuccess` unless `mq_send`
reports an error, in which case `OtaOsEventQueueSendFailed`.  `none` stands
for the producer blocked inside `mq_send` on a full queue, in which case no
status is returned to the caller at all. -/
def Posix_OtaSendEvent (q : PosixMq) (m : OtaEventMsg) :
    Option (OtaOsStatus × PosixMq) :=
  match mq_send q m with
  | MqSendOutcome.sent q2 => some (OtaOsStatus.OtaOsSuccess, q2)
  | MqSendOutcome.eagain => some (OtaOsStatus.OtaOsEventQueueSendFailed, q)
  | MqSendOutcome.blocked => none

/-- `Posix_OtaReceiveEvent`: blocks in `mq_receive`, then copies the message
out through the local buffer; `OtaOsSuccess` on delivery. -/
def Posix_OtaReceiveEvent (q : PosixMq) :
    Option (OtaOsStatus × OtaEventMsg × PosixMq) :=
  match mq_receive q with
  | some (m, q2) => some (OtaOsStatus.OtaOsSuccess, m, q2)
  | none => none

/-- Sends the listed messages in order; `none` as soon as one send blocks. -/
def sendListPosix (q : PosixMq) : List OtaEventMsg → Option (List OtaOsStatus × PosixMq)
  | [] => some ([], q)
  | m :: ms =>
    match Posix_OtaSendEvent q m with
    | some (e, q2) =>
      match sendListPosix q2 ms with
      | some (es, q3) => some (e :: es, q3)
      | none => none
    | none => none

/-- Receives `n` messages in order; `none` when a receive stays blocked. -/
def drainNPosix (q : PosixMq) : Nat → Option (List OtaEventMsg × PosixMq)
  | 0 => some ([], q)
  | n + 1 =>
    match Posix_OtaReceiveEvent q with
    | some (_, m, q2) =>
      match drainNPosix q2 n with
      | some (ms, q3) => some (m :: ms, q3)
      | none => none
    | none => none

end Posix

/-- The two timer ids of the V1.2.0 port (`OtaTimerId_t`, `OtaNumOfTimers`
slots in the `otaTimer` handle array). -/
inductive OtaTimerId where
  | OtaRequestTimer
  | OtaSelfTestTimer
  deriving DecidableEq, Repr

/-- Event kinds of the agent, per the data model of the specification. -/
inductive OtaEventKind where
  | JobDocAvailable
  | BlockAvailable
  | RequestTimeout
  | SelfTestTimeout
  | Shutdown
  | UserAbort
  deriving DecidableEq, Repr

/-- Modelled from the spec: the agent code mapping a timer id to the event
posted on expiry is not under src/.  Per the event enumeration of the data
model, the request timer produces `RequestTimeout` and the self-test timer
produces `SelfTestTimeout`. -/
def timerIdToEventKind : OtaTimerId → OtaEventKind
  | OtaTimerId.OtaRequestTimer => OtaEventKind.RequestTimeout
  | OtaTimerId.OtaSelfTestTimer => OtaEventKind.SelfTestTimeout

/-- `pdMS_TO_TICKS`: milliseconds to ticks at the configured tick rate. -/
def pdMS_TO_TICKS (tickRateHz ms : Nat) : Nat :=
  ms * tickRateHz / 1000

/-- Replaces the element at index `k` (out-of-range indices leave the list
unchanged). -/
def modifyAt {α : Type} : List α → Nat → (α → α) → List α
  | [], _, _ => []
  | a :: as, 0, f => f a :: as
  | a :: as, k + 1, f => a :: modifyAt as k f

/-- A FreeRTOS software timer as `xTimerCreate` makes one: the callback slot
of `timerCallback[otaTimerId]` it was created with, its period in ticks, the
auto-reload flag (`pdFALSE` here, a one-shot timer), whether it is currently
armed, and whether the kernel object still exists (`xTimerDelete` clears
it). -/
structure FrTimer where
  callbackId : OtaTimerId
  periodTicks : Nat
  autoReload : Bool
  armed : Bool
  alive : Bool
  deriving DecidableEq, Repr

/-- State of the V1.2.0 timer port: every timer instance `xTimerCreate` has
produced (in creation order), and the `otaTimer[OtaNumOfTimers]` handle
array, each handle an index into `instances` or `none` for NULL. -/
structure FrTimerState where
  instances : List FrTimer
  hRequest : Option Nat
  hSelfTest : Option Nat
  deriving DecidableEq, Repr

/-- The `otaTimer[id]` handle. -/
def FrTimerState.handleOf (s : FrTimerState) : OtaTimerId → Option Nat
  | OtaTimerId.OtaRequestTimer => s.hRequest
  | OtaTimerId.OtaSelfTestTimer => s.hSelfTest

/-- Stores a handle into `otaTimer[id]`. -/
def FrTimerState.setHandle (s : FrTimerState) (id : OtaTimerId) (h : Option Nat) :
    FrTimerState :=
  match id with
  | OtaTimerId.OtaRequestTimer => { s with hRequest := h }
  | OtaTimerId.OtaSelfTestTimer => { s with hSelfTest := h }

/-- The port state at program start: no timer created, both handles NULL. -/
def initialFrTimerState : FrTimerState :=
  { instances := [], hRequest := none, hSelfTest := none }

/-- Arms the instance at index `k` (`xTimerStart` / `xTimerReset`). -/
def FrTimerState.armAt (s : FrTimerState) (k : Nat) : FrTimerState :=
  { s with instances := modifyAt s.instances k (fun t => { t with armed := true }) }

/-- Disarms the instance at index `k` (`xTimerStop`). -/
def FrTimerState.disarmAt (s : FrTimerState) (k : Nat) : FrTimerState :=
  { s with instances := modifyAt s.instances k (fun t => { t with armed := false }) }

/-- Destroys the instance at index `k` (`xTimerDelete`). -/
def FrTimerState.deleteAt (s : FrTimerState) (k : Nat) : FrTimerState :=
  { s with instances :=
      modifyAt s.instances k (fun t => { t with armed := false, alive := false }) }

/-- Number of live timer instances whose callback slot is `id`. -/
def FrTimerState.countId (s : FrTimerState) (id : OtaTimerId) : Nat :=
  s.instances.countP (fun t => t.alive && t.callbackId == id)

/-- Number of pending expiries for `id`: live, armed instances bound to the
callback slot of `id`. -/
def FrTimerState.pendingExpiries (s : FrTimerState) (id : OtaTimerId) : Nat :=
  s.instances.countP (fun t => t.alive && t.armed && t.callbackId == id)

namespace V1

/-- `OtaStartTimer_FreeRTOS` of the V1.2.0 port.  If `otaTimer[otaTimerId]`
is NULL, `xTimerCreate(pTimerName, pdMS_TO_TICKS(timeout), pdFALSE, NULL,
timerCallback[otaTimerId])` creates a fresh one-shot timer, the handle is
stored, and `xTimerStart` arms it; otherwise the existing timer is re-armed
in place with `xTimerReset`.  Kernel calls succeed in this model, so the
returned code is `OTA_ERR_NONE` on both paths. -/
def OtaStartTimer_FreeRTOS (tickRateHz : Nat) (s : FrTimerState)
    (otaTimerId : OtaTimerId) (pTimerName : String) (timeout : Nat) :
    OtaErr × FrTimerState :=
  match s.handleOf otaTimerId with
  | none =>
    let t : FrTimer :=
      { callbackId := otaTimerId
        periodTicks := pdMS_TO_TICKS tickRateHz timeout
        autoReload := false
        armed := false
        alive := true }
    let s2 : FrTimerState :=
      { s with instances := s.instances ++ [t] }
    let s3 := s2.setHandle otaTimerId (some s.instances.length)
    (OtaErr.OTA_ERR_NONE, s3.armAt s.instances.length)
  | some k => (OtaErr.OTA_ERR_NONE, s.armAt k)

/-- `OtaStopTimer_FreeRTOS`: with a non-NULL handle, `xTimerStop` disarms the
timer and the port returns `OTA_ERR_NONE`; with a NULL handle the port only
logs a warning and still returns `OTA_ERR_NONE`. -/
def OtaStopTimer_FreeRTOS (s : FrTimerState) (otaTimerId : OtaTimerId) :
    OtaErr × FrTimerState :=
  match s.handleOf otaTimerId with
  | some k => (OtaErr.OTA_ERR_NONE, s.disarmAt k)
  | none => (OtaErr.OTA_ERR_NONE, s)

/-- `ota_DeleteTimer` of the V1.2.0 port: with a non-NULL handle,
`xTimerDelete` destroys the timer, the handle is set back to NULL and
`OTA_ERR_NONE` is returned; with a NULL handle the port returns
`OTA_ERR_EVENT_TIMER_DELETE_FAILED`. -/
def ota_DeleteTimer (s : FrTimerState) (otaTimerId : OtaTimerId) :
    OtaErr × FrTimerState :=
  match s.handleOf otaTimerId with
  | some k => (OtaErr.OTA_ERR_NONE, (s.deleteAt k).setHandle otaTimerId none)
  | none => (OtaErr.OTA_ERR_EVENT_TIMER_DELETE_FAILED, s)

/-- Runs a sequence of start calls: each entry is (timer id, name, timeout
in ms). -/
def runStarts (tickRateHz : Nat) (s : FrTimerState) :
    List (OtaTimerId × String × Nat) → FrTimerState
  | [] => s
  | c :: cs =>
    runStarts tickRateHz (OtaStartTimer_FreeRTOS tickRateHz s c.1 c.2.1 c.2.2).2 cs

end V1

/-- Expiry of a FreeRTOS software timer: the kernel disarms a one-shot timer
(auto-reload `pdFALSE`) after its single callback run; an auto-reload timer
stays armed. -/
def fireFrTimer (t : FrTimer) : FrTimer :=
  if t.autoReload then t else { t with armed := false }

/-- The id a V1.2.0 timer expiry hands to the application callback:
`requestTimerCallback` passes `OtaRequestTimer` and `selfTestTimerCallback`
passes `OtaSelfTestTimer`, i.e. the slot the timer was created with. -/
def frTimerSignal (t : FrTimer) : OtaTimerId :=
  t.callbackId

namespace Portable

/-- `OtaStopTimer_FreeRTOS` of source/portable: a non-NULL timer is stopped
with `xTimerStop`; a NULL timer only logs an error.  `otaErrRet` keeps its
initial `OtaOsSuccess` on both paths (kernel calls succeed in the model). -/
def OtaStopTimer_FreeRTOS (timerExists : Bool) : OtaOsStatus :=
  if timerExists then OtaOsStatus.OtaOsSuccess else OtaOsStatus.OtaOsSuccess

/-- `ota_DeleteTimer` of source/portable: a non-NULL timer is destroyed with
`xTimerDelete` (returning `OtaOsSuccess` when the kernel call succeeds); a
NULL timer makes the port return `OtaOsTimerDeleteFailed`. -/
def ota_DeleteTimer (timerExists : Bool) : OtaOsStatus :=
  if timerExists then OtaOsStatus.OtaOsSuccess else OtaOsStatus.OtaOsTimerDeleteFailed

end Portable

/-- A POSIX per-process timer as `timer_create` makes one, with the values
last handed to `timer_settime`: armed when `it_value` is nonzero, the
`it_value.tv_sec` and `it_interval.tv_sec` seconds fields (`tv_nsec` stays 0
in this port). -/
structure PosixTimer where
  armed : Bool
  valueSec : Nat
  intervalSec : Nat
  deriving DecidableEq, Repr

/-- State of the POSIX timer port: every kernel timer `timer_create` has
produced, and the single global `otaTimer` handle (index of the most recently
created timer). -/
structure PosixTimerState where
  kernelTimers : List PosixTimer
  otaTimer : Nat
  deriving DecidableEq, Repr

/-- The port state at program start. -/
def initialPosixTimerState : PosixTimerState :=
  { kernelTimers := [], otaTimer := 0 }

namespace Posix

/-- `Posix_OtaStartTimer`: builds a `sigevent` (SIGEV_THREAD,
`timerCallback`), then unconditionally calls
`timer_create(CLOCK_REALTIME, ..., &otaTimer)` -- overwriting the global
handle with a fresh kernel timer and leaving any previously created timer
untouched -- and arms the new timer with `timer_settime` where
`it_value.tv_sec = timeout` and `it_interval.tv_sec = it_value.tv_sec`. -/
def Posix_OtaStartTimer (s : PosixTimerState) (pTimerName : String)
    (timeout : Nat) : OtaOsStatus × PosixTimerState :=
  let created := s.kernelTimers ++ [{ armed := false, valueSec := 0, intervalSec := 0 }]
  let h := s.kernelTimers.length
  let armedTimers :=
    modifyAt created h
      (fun _ => { armed := 0 < timeout, valueSec := timeout, intervalSec := timeout })
  (OtaOsStatus.OtaOsSuccess, { kernelTimers := armedTimers, otaTimer := h })

end Posix

/-- Number of armed kernel timers in the POSIX port state: each is a pending
expiry source. -/
def posixPendingExpiries (s : PosixTimerState) : Nat :=
  s.kernelTimers.countP (fun t => t.armed)

/-- The kernel timer the global `otaTimer` handle currently names. -/
def currentPosixTimer (s : PosixTimerState) : PosixTimer :=
  s.kernelTimers.getD s.otaTimer { armed := false, valueSec := 0, intervalSec := 0 }

/-- Expiry of a POSIX timer: with a zero `it_interval` the timer disarms
after firing; with a nonzero `it_interval` it reloads and stays armed. -/
def firePosixTimer (t : PosixTimer) : PosixTimer :=
  if t.intervalSec = 0 then { t with armed := false }
  else { t with armed := true, valueSec := t.intervalSec }

/-- The event the POSIX port `timerCallback` posts on every expiry: it always
builds a message with `eventId = OtaAgentEventRequestTimer` and hands it to
`OTA_SignalEvent`. -/
def posixTimerCallbackEvent : OtaEventKind :=
  OtaEventKind.RequestTimeout

/-- Milliseconds until expiry of an armed POSIX timer as this port sets it:
`it_value.tv_sec` seconds and zero nanoseconds. -/
def posixArmedDelayMs (t : PosixTimer) : Nat :=
  t.valueSec * 1000

/-- `ModelParamType_t`: the closed set of field types of the document
model. -/
inductive ModelParamType where
  | ModelParamTypeStringCopy
  | ModelParamTypeStringInDoc
  | ModelParamTypeObject
  | ModelParamTypeArray
  | ModelParamTypeUInt32
  | ModelParamTypeSigBase64
  | ModelParamTypeIdent
  | ModelParamTypeArrayCopy
  deriving DecidableEq, Repr, Inhabited

/-- `DocParseErr_t`: the typed parse errors of the generic JSON document
parser. -/
inductive DocParseErr where
  | DocParseErrUnknown
  | DocParseErrNone
  | DocParseErrOutOfMemory
  | DocParseErrFieldTypeMismatch
  | DocParseErrBase64Decode
  | DocParseErrInvalidNumChar
  | DocParseErrDuplicatesNotAllowed
  | DocParseErrMalformedDoc
  | DocParseErr_InvalidJSONBuffer
  | DocParseErrNullModelPointer
  | DocParseErrNullBodyPointer
  | DocParseErrNullDocPointer
  | DocParseErrTooManyParams
  | DocParseErrParamKeyNotInModel
  | DocParseErrInvalidModelParamType
  | DocParseErrInvalidToken
  deriving DecidableEq, Repr

/-- `IngestResult_t`: results of the block ingest engine. -/
inductive IngestResult where
  | IngestResultFileComplete
  | IngestResultSigCheckFail
  | IngestResultFileCloseFail
  | IngestResultNullContext
  | IngestResultBadFileHandle
  | IngestResultUnexpectedBlock
  | IngestResultBlockOutOfRange
  | IngestResultBadData
  | IngestResultWriteBlockFailed
  | IngestResultNullResultPointer
  | IngestResultUninitialized
  | IngestResultAccepted_Continue
  | IngestResultDuplicate_Continue
  deriving DecidableEq, Repr

/-- A JSON source value, as far as the document model distinguishes values:
a string, a numeric literal (kept as its raw text so numeric extraction can
fail on a bad character), a nested object or a nested array. -/
inductive JsonValue where
  | jString (s : String)
  | jNumber (s : String)
  | jObject
  | jArray
  deriving DecidableEq, Repr

/-- `JsonDocParam_t`: one field descriptor of a document model -- the
(possibly dotted) key path, the required flag, and the expected type.  The
`destOffset` destination is carried separately where a claim needs it. -/
structure JsonDocParam where
  pSrcKey : String
  required : Bool
  modelParamType : ModelParamType
  deriving DecidableEq, Repr, Inhabited

/-- `JsonDocModel_t`: destination context base address and size, the
descriptor table, and the two 32-bit parameter bitmaps. -/
structure JsonDocModel where
  contextBase : Nat
  contextSize : Nat
  pBodyDef : List JsonDocParam
  paramsReceivedBitmap : Nat
  paramsRequiredBitmap : Nat
  deriving DecidableEq, Repr

/-- `OTA_DOC_MODEL_MAX_PARAMS`: the descriptor table is backed by a 32-bit
bitmap. -/
def OTA_DOC_MODEL_MAX_PARAMS : Nat := 32

/-- The required-parameter bitmap a model derives from its descriptor table:
bit `i` is set exactly when descriptor `i` is marked required. -/
def requiredBitmapOf : List JsonDocParam → Nat
  | [] => 0
  | p :: ps => (if p.required then 1 else 0) ||| (requiredBitmapOf ps <<< 1)

/-- Modelled from the spec: document-model construction.  The received
bitmap starts at 0 and the required bitmap is derived from the required
flags of the descriptor table. -/
def initDocModel (base size : Nat) (body : List JsonDocParam) : JsonDocModel :=
  { contextBase := base
    contextSize := size
    pBodyDef := body
    paramsReceivedBitmap := 0
    paramsRequiredBitmap := requiredBitmapOf body }

/-- The descriptor at index `i` of a table. -/
def paramAt (ps : List JsonDocParam) (i : Nat) : JsonDocParam :=
  ps.getD i default

/-- The descriptor a document key resolves to: the first table entry whose
key path equals the document key, case-sensitive, exact match only. -/
def matchedIdx (ps : List JsonDocParam) (key : String) : Option Nat :=
  ps.findIdx? (fun p => p.pSrcKey == key)

/-- Whether a source JSON value has the type a descriptor declares:
string-like types take a string, the unsigned-32-bit type takes a number,
and the nested types take an object or an array. -/
def typeCompatible : ModelParamType → JsonValue → Bool
  | ModelParamType.ModelParamTypeStringCopy, JsonValue.jString _ => true
  | ModelParamType.ModelParamTypeStringInDoc, JsonValue.jString _ => true
  | ModelParamType.ModelParamTypeIdent, JsonValue.jString _ => true
  | ModelParamType.ModelParamTypeSigBase64, JsonValue.jString _ => true
  | ModelParamType.ModelParamTypeObject, JsonValue.jObject => true
  | ModelParamType.ModelParamTypeArray, JsonValue.jArray => true
  | ModelParamType.ModelParamTypeArrayCopy, JsonValue.jArray => true
  | ModelParamType.ModelParamTypeUInt32, JsonValue.jNumber _ => true
  | _, _ => false

/-- Whether a numeric literal is a plain decimal number. -/
def isDecimalDigits (s : String) : Bool :=
  s.data.length != 0 && s.data.all (fun c => c.isDigit)

/-- Whether a string is well-formed base64 material (alphabet check; the
model does not reproduce the full decoder, only its accept/reject verdict on
the alphabet). -/
def isBase64String (s : String) : Bool :=
  s.data.length != 0 &&
    s.data.all (fun c => c.isAlphanum || c == '+' || c == '/' || c == '=')

/-- Modelled from the spec: extraction and storage of a matched, type-checked
value.  Numeric parse failure yields `DocParseErrInvalidNumChar` and base64
decode failure yields `DocParseErrBase64Decode`; the other types store a copy
or a reference and cannot fail here.  `none` means the value was stored. -/
def extractValue : ModelParamType → JsonValue → Option DocParseErr
  | ModelParamType.ModelParamTypeUInt32, JsonValue.jNumber s =>
    if isDecimalDigits s then none else some DocParseErr.DocParseErrInvalidNumChar
  | ModelParamType.ModelParamTypeSigBase64, JsonValue.jString s =>
    if isBase64String s then none else some DocParseErr.DocParseErrBase64Decode
  | _, _ => none

/-- Whether a field type permits a later document field to overwrite an
already-received parameter.  The specification names no such type, so every
repeat of a matched key is a duplicate failure. -/
def allowsOverwrite (_ : ModelParamType) : Bool :=
  false

/-- Modelled from the spec: the scan phase of the document-model parser.
Each document key/value pair is resolved against the descriptor table (first
match wins; unmatched keys are silently ignored); a matched pair is type
checked (`DocParseErrFieldTypeMismatch`), checked against the received
bitmap for duplicates (`DocParseErrDuplicatesNotAllowed`), extracted, and
its bit is set in the received bitmap. -/
def scanDocument (ps : List JsonDocParam) (received : Nat) :
    List (String × JsonValue) → Except DocParseErr Nat
  | [] => Except.ok received
  | kv :: rest =>
    match matchedIdx ps kv.1 with
    | none => scanDocument ps received rest
    | some i =>
      let p := paramAt ps i
      if !typeCompatible p.modelParamType kv.2 then
        Except.error DocParseErr.DocParseErrFieldTypeMismatch
      else if received.testBit i && !allowsOverwrite p.modelParamType then
        Except.error DocParseErr.DocParseErrDuplicatesNotAllowed
      else
        match extractValue p.modelParamType kv.2 with
        | some e => Except.error e
        | none => scanDocument ps (received ||| (1 <<< i)) rest

/-- Modelled from the spec: the document-model parse operation.  An
oversized model (more than 32 descriptors) is rejected early with
`DocParseErrTooManyParams`; then the document is scanned, and after the scan
the parse fails with `DocParseErrMalformedDoc` unless the required bitmap is
a subset of the received bitmap (`required AND received = required`). -/
def parseJSONbyModel (model : JsonDocModel) (doc : List (String × JsonValue)) :
    Except DocParseErr JsonDocModel :=
  if OTA_DOC_MODEL_MAX_PARAMS < model.pBodyDef.length then
    Except.error DocParseErr.DocParseErrTooManyParams
  else
    match scanDocument model.pBodyDef model.paramsReceivedBitmap doc with
    | Except.error e => Except.error e
    | Except.ok received =>
      if model.paramsRequiredBitmap &&& received = model.paramsRequiredBitmap then
        Except.ok { model with paramsReceivedBitmap := received }
      else
        Except.error DocParseErr.DocParseErrMalformedDoc

/-- Every descriptor marked required is matched by some document field of
the right type: for each required index `i` the document holds a pair whose
key resolves (first match) to `i`. -/
def requiredCovered (ps : List JsonDocParam) (doc : List (String × JsonValue)) : Bool :=
  (List.range ps.length).all fun i =>
    !(paramAt ps i).required ||
      doc.any (fun kv => matchedIdx ps kv.1 == some i)

/-- Every document field that matches a descriptor is type-correct for it
and extracts without error. -/
def matchesWellTyped (ps : List JsonDocParam) (doc : List (String × JsonValue)) : Bool :=
  doc.all fun kv =>
    match matchedIdx ps kv.1 with
    | none => true
    | some i =>
      typeCompatible (paramAt ps i).modelParamType kv.2 &&
        (extractValue (paramAt ps i).modelParamType kv.2).isNone

/-- The descriptor indices the document fields resolve to, in document
order (unmatched fields contribute nothing). -/
def matchedIndices (ps : List JsonDocParam) (doc : List (String × JsonValue)) : List Nat :=
  doc.filterMap (fun kv => matchedIdx ps kv.1)

/-- Whether a list of indices has no repeats. -/
def nodupB : List Nat → Bool
  | [] => true
  | x :: xs => !xs.contains x && nodupB xs

/-- The claim hypothesis of C1 taken literally: each required field is
present in the document under its key with a type-correct value (nothing is
said about other fields). -/
def requiredPresentAndTypeCorrect (ps : List JsonDocParam)
    (doc : List (String × JsonValue)) : Bool :=
  ps.all fun p =>
    !p.required ||
      doc.any (fun kv => kv.1 == p.pSrcKey && typeCompatible p.modelParamType kv.2)

/-- Modelled from the spec: destination resolution for a field descriptor.
A raw `destOffset` value strictly below the size of the destination context
record is a byte offset within the active context (effective address is the
context base plus the offset); a value at or above the record size is used
as an absolute memory reference. -/
def docModelParamToAddress (model : JsonDocModel) (destOffset : Nat) : Nat :=
  if destOffset < model.contextSize then model.contextBase + destOffset
  else destOffset

/-- `OTA_ERASED_BLOCKS_VAL`: the erased (all blocks missing) state of one
bitmap byte. -/
def OTA_ERASED_BLOCKS_VAL : Nat := 255

/-- Modelled from the spec: the file transfer context fields the block
ingest engine touches.  `blockBitmap` is byte-oriented, one bit per block,
bit value 1 = block not yet received. -/
structure OtaFileContext where
  fileSize : Nat
  blockSize : Nat
  blocksRemaining : Nat
  blockBitmap : List Nat
  deriving DecidableEq, Repr

/-- Total number of blocks of the transfer: ceiling of file size over block
size. -/
def totalBlocks (c : OtaFileContext) : Nat :=
  (c.fileSize + c.blockSize - 1) / c.blockSize

/-- Reads bit `blockIndex` of the byte-oriented bitmap: byte `blockIndex / 8`,
bit position `blockIndex % 8`. -/
def bitmapGet (bmp : List Nat) (blockIndex : Nat) : Bool :=
  (bmp.getD (blockIndex / 8) 0).testBit (blockIndex % 8)

/-- Clears bit `blockIndex` of the byte-oriented bitmap. -/
def bitmapClear (bmp : List Nat) (blockIndex : Nat) : List Nat :=
  modifyAt bmp (blockIndex / 8)
    (fun b => b &&& (OTA_ERASED_BLOCKS_VAL ^^^ (1 <<< (blockIndex % 8))))

/-- The erased bitmap for `n` blocks: ceiling of `n / 8` bytes, each
`OTA_ERASED_BLOCKS_VAL`. -/
def initBitmap (n : Nat) : List Nat :=
  List.replicate ((n + 7) / 8) OTA_ERASED_BLOCKS_VAL

/-- Modelled from the spec: the block ingest operation.  The checks run in
order: block index at or beyond `totalBlocks` is `IngestResultBlockOutOfRange`
(before any mutation); a structurally invalid block is `IngestResultBadData`;
a block whose bit is already clear is skipped as
`IngestResultDuplicate_Continue`; otherwise the platform write runs
(`IngestResultWriteBlockFailed` on failure), the bit is cleared and
`blocksRemaining` decremented; when `blocksRemaining` reaches 0 the signature
check decides `IngestResultFileComplete` against `IngestResultSigCheckFail`,
and otherwise the result is `IngestResultAccepted_Continue`.  The outcomes of
the external platform collaborators (block framing validity, write, signature
check) are the boolean arguments. -/
def ingestDataBlock (ctx : OtaFileContext) (blockIndex : Nat)
    (blockDataValid writeOk sigOk : Bool) : IngestResult × OtaFileContext :=
  if totalBlocks ctx ≤ blockIndex then
    (IngestResult.IngestResultBlockOutOfRange, ctx)
  else if !blockDataValid then
    (IngestResult.IngestResultBadData, ctx)
  else if !bitmapGet ctx.blockBitmap blockIndex then
    (IngestResult.IngestResultDuplicate_Continue, ctx)
  else if !writeOk then
    (IngestResult.IngestResultWriteBlockFailed, ctx)
  else
    let ctx2 : OtaFileContext :=
      { ctx with
        blockBitmap := bitmapClear ctx.blockBitmap blockIndex
        blocksRemaining := ctx.blocksRemaining - 1 }
    if ctx2.blocksRemaining = 0 then
      if sigOk then (IngestResult.IngestResultFileComplete, ctx2)
      else (IngestResult.IngestResultSigCheckFail, ctx2)
    else
      (IngestResult.IngestResultAccepted_Continue, ctx2)

/-- A sample event message (a request-timer style event, no payload). -/
def msgA : OtaEventMsg :=
  { eventId := 1, pEventData := none }

/-- A second sample event message, with a payload buffer reference. -/
def msgB : OtaEventMsg :=
  { eventId := 2, pEventData := some 7 }

/-- A sample file transfer context: 1000-byte file, 256-byte blocks, so 4
blocks, none received yet. -/
def ctxEx : OtaFileContext :=
  { fileSize := 1000, blockSize := 256, blocksRemaining := 4, blockBitmap := initBitmap 4 }

/-- A descriptor table with a required numeric field and an optional numeric
field. -/
def cexBody : List JsonDocParam :=
  [ { pSrcKey := "filesize", required := true
      modelParamType := ModelParamType.ModelParamTypeUInt32 }
  , { pSrcKey := "attr", required := false
      modelParamType := ModelParamType.ModelParamTypeUInt32 } ]

/-- A document whose only required field is present and type-correct, but
whose optional field carries a string where the model declares a number. -/
def cexDoc : List (String × JsonValue) :=
  [ ("filesize", JsonValue.jNumber "1000")
  , ("attr", JsonValue.jString "rw") ]

/-- A small job-document model: required job id and file size, optional
certificate file name. -/
def okBody : List JsonDocParam :=
  [ { pSrcKey := "execution.jobId", required := true
      modelParamType := ModelParamType.ModelParamTypeStringInDoc }
  , { pSrcKey := "filesize", required := true
      modelParamType := ModelParamType.ModelParamTypeUInt32 }
  , { pSrcKey := "certfile", required := false
      modelParamType := ModelParamType.ModelParamTypeStringCopy } ]

/-- A document carrying both required fields of `okBody` with the right
types (and no duplicates). -/
def okDoc : List (String × JsonValue) :=
  [ ("execution.jobId", JsonValue.jString "job-22")
  , ("filesize", JsonValue.jNumber "1000") ]

/-- A POSIX event queue filled to its depth of 10. -/
def fullPosixMq : PosixMq :=
  { mq_maxmsg := MAX_MESSAGES, nonblock := false, messages := List.replicate 10 msgA }

/-- Invariant of the V1.2.0 timer port preserved by every start call: at
most one live timer instance per timer id (none while the handle is NULL),
and no auto-reload instance exists. -/
def StartInv (s : FrTimerState) : Prop :=
  (∀ id : OtaTimerId, s.countId id ≤ 1 ∧ (s.handleOf id = none → s.countId id = 0)) ∧
  s.instances.countP (fun t => t.autoReload) = 0

/-- The armed one-shot timer instance a start call on a NULL handle leaves
behind (`xTimerCreate` followed by `xTimerStart`). -/
def newFrTimer (hz ms : Nat) (id : OtaTimerId) : FrTimer :=
  { callbackId := id, periodTicks := pdMS_TO_TICKS hz ms,
    autoReload := false, armed := true, alive := true }

theorem countP_modifyAt {α : Type} (p : α → Bool) (f : α → α)
    (hf : ∀ a, p (f a) = p a) (l : List α) :
    ∀ k : Nat, (modifyAt l k f).countP p = l.countP p := by
  induction l with
  | nil => intro k; rfl
  | cons a as ih =>
    intro k
    cases k with
    | zero => simp [modifyAt, List.countP_cons, hf]
    | succ k => simp [modifyAt, List.countP_cons, ih k]

theorem modifyAt_append_length {α : Type} (l : List α) (a : α) (f : α → α) :
    modifyAt (l ++ [a]) l.length f = l ++ [f a] := by
  induction l with
  | nil => rfl
  | cons x xs ih => simp [modifyAt, ih]

theorem handleOf_setHandle_self (s : FrTimerState) (id : OtaTimerId) (h : Option Nat) :
    (s.setHandle id h).handleOf id = h := by
  cases id <;> rfl

theorem handleOf_setHandle_ne (s : FrTimerState) (id id2 : OtaTimerId) (h : Option Nat)
    (hne : id ≠ id2) : (s.setHandle id h).handleOf id2 = s.handleOf id2 := by
  cases id <;> cases id2 <;> first | exact absurd rfl hne | rfl

theorem instances_setHandle (s : FrTimerState) (id : OtaTimerId) (h : Option Nat) :
    (s.setHandle id h).instances = s.instances := by
  cases id <;> rfl

theorem handleOf_armAt (s : FrTimerState) (k : Nat) (id : OtaTimerId) :
    (s.armAt k).handleOf id = s.handleOf id := by
  cases id <;> rfl

theorem countId_armAt (s : FrTimerState) (k : Nat) (id : OtaTimerId) :
    (s.armAt k).countId id = s.countId id := by
  simp only [FrTimerState.armAt, FrTimerState.countId]
  apply countP_modifyAt
  intro a
  rfl

theorem oneShotCount_armAt (s : FrTimerState) (k : Nat) :
    (s.armAt k).instances.countP (fun t => t.autoReload) =
      s.instances.countP (fun t => t.autoReload) := by
  simp only [FrTimerState.armAt]
  apply countP_modifyAt
  intro a
  rfl

theorem pendingExpiries_le_countId (s : FrTimerState) (id : OtaTimerId) :
    s.pendingExpiries id ≤ s.countId id := by
  apply List.countP_mono_left
  intro t _ h
  simp only [Bool.and_eq_true] at h ⊢
  exact ⟨h.1.1, h.2⟩

theorem startInv_initial : StartInv initialFrTimerState :=
  ⟨fun _ => ⟨Nat.zero_le 1, fun _ => rfl⟩, rfl⟩

theorem start_none_eq (hz : Nat) (s : FrTimerState) (id : OtaTimerId)
    (name : String) (ms : Nat) (hh : s.handleOf id = none) :
    (V1.OtaStartTimer_FreeRTOS hz s id name ms).2 =
      FrTimerState.setHandle
        { s with instances := s.instances ++ [newFrTimer hz ms id] } id
        (some s.instances.length) := by
  cases id <;>
    simp_all [V1.OtaStartTimer_FreeRTOS, FrTimerState.handleOf, FrTimerState.setHandle,
      FrTimerState.armAt, modifyAt_append_length, newFrTimer]

theorem start_some_eq (hz : Nat) (s : FrTimerState) (id : OtaTimerId)
    (name : String) (ms : Nat) (k : Nat) (hh : s.handleOf id = some k) :
    (V1.OtaStartTimer_FreeRTOS hz s id name ms).2 = s.armAt k := by
  cases id <;> simp_all [V1.OtaStartTimer_FreeRTOS, FrTimerState.handleOf]

theorem countId_start_none (hz : Nat) (s : FrTimerState) (id id2 : OtaTimerId)
    (ms : Nat) :
    (FrTimerState.setHandle
        { s with instances := s.instances ++ [newFrTimer hz ms id] } id
        (some s.instances.length)).countId id2 =
      s.countId id2 + (if ((newFrTimer hz ms id).alive &&
        (newFrTimer hz ms id).callbackId == id2) then 1 else 0) := by
  simp only [FrTimerState.countId, instances_setHandle, List.countP_append,
    List.countP_cons, List.countP_nil, Nat.zero_add]

theorem startInv_start (hz : Nat) (s : FrTimerState) (id : OtaTimerId)
    (name : String) (ms : Nat) (h : StartInv s) :
    StartInv (V1.OtaStartTimer_FreeRTOS hz s id name ms).2 := by
  obtain ⟨h1, h2⟩ := h
  cases hh : s.handleOf id with
  | some k =>
    rw [start_some_eq hz s id name ms k hh]
    refine ⟨fun id2 => ?_, ?_⟩
    · rw [countId_armAt, handleOf_armAt]
      exact h1 id2
    · rw [oneShotCount_armAt]
      exact h2
  | none =>
    rw [start_none_eq hz s id name ms hh]
    refine ⟨fun id2 => ?_, ?_⟩
    · by_cases hid : id = id2
      · subst hid
        constructor
        · rw [countId_start_none]
          have h0 : s.countId id = 0 := (h1 id).2 hh
          simp [newFrTimer, h0]
        · rw [handleOf_setHandle_self]
          intro hcon
          cases hcon
      · constructor
        · rw [countId_start_none]
          have hb : ((newFrTimer hz ms id).alive &&
              (newFrTimer hz ms id).callbackId == id2) = false := by
            simp [newFrTimer, hid]
          rw [hb]
          simpa using (h1 id2).1
        · rw [handleOf_setHandle_ne _ _ _ _ hid, countId_start_none]
          intro hnone
          have hb : ((newFrTimer hz ms id).alive &&
              (newFrTimer hz ms id).callbackId == id2) = false := by
            simp [newFrTimer, hid]
          rw [hb]
          simpa using (h1 id2).2 hnone
    · show List.countP _ _ = 0
      simp only [instances_setHandle, List.countP_append, List.countP_cons, List.countP_nil]
      simpa [newFrTimer] using h2

theorem runStarts_inv (hz : Nat) (cs : List (OtaTimerId × String × Nat)) :
    ∀ s : FrTimerState, StartInv s → StartInv (V1.runStarts hz s cs) := by
  induction cs with
  | nil => intro s h; exact h
  | cons c cs ih =>
    intro s h
    exact ih _ (startInv_start hz s c.1 c.2.1 c.2.2 h)

/-- Claim C3 (amended part): in the V1.2.0 FreeRTOS port, starting a timer
whose handle is already non-NULL resets the existing instance instead of
creating a second one, so after any sequence of start calls from the initial
state there is at most one live timer instance and at most one pending
expiry per timer id. -/
theorem freertos_start_at_most_one_pending (hz : Nat)
    (calls : List (OtaTimerId × String × Nat)) (id : OtaTimerId) :
    (V1.runStarts hz initialFrTimerState calls).countId id ≤ 1 ∧
    (V1.runStarts hz initialFrTimerState calls).pendingExpiries id ≤ 1 := by
  have h := runStarts_inv hz calls initialFrTimerState startInv_initial
  exact ⟨(h.1 id).1,
    le_trans (pendingExpiries_le_countId _ id) ((h.1 id).1)⟩

/-- Claim C3 (counterexample): in the POSIX port, `Posix_OtaStartTimer`
calls `timer_create` unconditionally, so starting the request timer twice in
a row leaves two created kernel timers, both armed -- two pending expiries,
not one. -/
theorem posix_start_twice_two_pending :
    posixPendingExpiries
      (Posix.Posix_OtaStartTimer
        (Posix.Posix_OtaStartTimer initialPosixTimerState "requestTimer" 10000).2
        "requestTimer" 10000).2 = 2 ∧
    ¬ posixPendingExpiries
      (Posix.Posix_OtaStartTimer
        (Posix.Posix_OtaStartTimer initialPosixTimerState "requestTimer" 10000).2
        "requestTimer" 10000).2 ≤ 1 := by
  constructor
  · rfl
  · decide

/-- Claim C4 (amended part): the V1.2.0 FreeRTOS port keeps two timers with
fixed distinct ids; expiry of the self-test timer signals
`OtaSelfTestTimer`, mapping to a `SelfTestTimeout` event distinct from the
`RequestTimeout` event of the request timer; every timer instance the start
operation creates is one-shot (auto-reload `pdFALSE`), and firing a one-shot
timer disarms it, so each timer fires at most once per arming. -/
theorem freertos_two_oneshot_timers_distinct_events (hz : Nat)
    (calls : List (OtaTimerId × String × Nat)) (id : OtaTimerId) (tm : FrTimer) :
    timerIdToEventKind OtaTimerId.OtaSelfTestTimer = OtaEventKind.SelfTestTimeout ∧
    timerIdToEventKind OtaTimerId.OtaRequestTimer = OtaEventKind.RequestTimeout ∧
    OtaEventKind.SelfTestTimeout ≠ OtaEventKind.RequestTimeout ∧
    (V1.runStarts hz initialFrTimerState calls).instances.countP
      (fun t => t.autoReload) = 0 ∧
    (fireFrTimer tm).armed = (tm.autoReload && tm.armed) ∧
    (V1.runStarts hz initialFrTimerState calls).countId id ≤ 1 := by
  refine ⟨rfl, rfl, by decide,
    (runStarts_inv hz calls initialFrTimerState startInv_initial).2, ?_,
    ((runStarts_inv hz calls initialFrTimerState startInv_initial).1 id).1⟩
  cases htm : tm.autoReload <;> simp [fireFrTimer, htm]

/-- Claim C4 (counterexample): the POSIX port keeps a single timer; starting
it arms it with `it_interval = it_value`, so after its first expiry it
reloads and stays armed (it fires more than once per arming), and its
callback always posts the request-timer event, never a self-test one. -/
theorem posix_timer_periodic_and_request_event_only :
    currentPosixTimer
      (Posix.Posix_OtaStartTimer initialPosixTimerState "selfTestTimer" 5).2 =
      { armed := true, valueSec := 5, intervalSec := 5 } ∧
    (firePosixTimer { armed := true, valueSec := 5, intervalSec := 5 }).armed = true ∧
    posixTimerCallbackEvent ≠ OtaEventKind.SelfTestTimeout := by
  refine ⟨rfl, rfl, ?_⟩
  decide

/-- Claim C5 (code evaluation): `Posix_OtaStartTimer` assigns the timeout
argument to `it_value.tv_sec`, so a start call with timeout 10000 arms the
kernel timer for 10000 seconds, i.e. 10000000 milliseconds, not the 10000
milliseconds the contract prescribes. -/
theorem posix_start_interprets_timeout_as_seconds :
    posixArmedDelayMs (currentPosixTimer
      (Posix.Posix_OtaStartTimer initialPosixTimerState "requestTimer" 10000).2) =
      10000000 ∧
    (10000000 : Nat) ≠ 10000 := by
  refine ⟨rfl, ?_⟩
  decide

/-- Claim C6 (code evaluation): the queue created by `OtaInitEvent_FreeRTOS`
of source/portable has `OTA_NUM_MSG_Q_ENTRIES = 20` slots (over a backing
array of only `MAX_MESSAGES = 10` messages), so eleven consecutive sends all
succeed there, while on the 10-deep queue of the V1.2.0 port the first ten
succeed and the eleventh fails as the claim states. -/
theorem portable_queue_accepts_eleventh_send :
    (Portable.sendRepeat Portable.OtaInitEvent_FreeRTOS msgA 11).1 =
      List.replicate 11 OtaOsStatus.OtaOsSuccess ∧
    Portable.OtaInitEvent_FreeRTOS.capacity = OTA_NUM_MSG_Q_ENTRIES ∧
    MAX_MESSAGES < OTA_NUM_MSG_Q_ENTRIES ∧
    (V1.sendList V1.OtaInitEvent_FreeRTOS (List.replicate 11 msgA)).1 =
      List.replicate 10 OtaErr.OTA_ERR_NONE ++ [OtaErr.OTA_ERR_EVENT_Q_SEND_FAILED] := by
  refine ⟨rfl, rfl, by decide, rfl⟩

/-- Claim C7 (amended): the FreeRTOS sends are non-blocking -- with free
space the event is appended and success returned, and on a full queue the
port immediately returns the queue-send-failed status with the queue
unchanged; the POSIX send also enqueues and returns success when space is
available, but on a full queue it blocks inside `mq_send` (the descriptor is
opened without `O_NONBLOCK`) instead of returning a failure status. -/
theorem send_surfaces_full_queue (q : FreeRTOSQueue) (mq : PosixMq)
    (m : OtaEventMsg) :
    (q.messages.length < q.capacity →
      V1.OtaSendEvent_FreeRTOS q m =
        (OtaErr.OTA_ERR_NONE, { q with messages := q.messages ++ [m] }) ∧
      Portable.OtaSendEvent_FreeRTOS q m =
        (OtaOsStatus.OtaOsSuccess, { q with messages := q.messages ++ [m] })) ∧
    (q.capacity ≤ q.messages.length →
      V1.OtaSendEvent_FreeRTOS q m = (OtaErr.OTA_ERR_EVENT_Q_SEND_FAILED, q) ∧
      Portable.OtaSendEvent_FreeRTOS q m =
        (OtaOsStatus.OtaOsEventQueueSendFailed, q)) ∧
    (mq.messages.length < mq.mq_maxmsg →
      Posix.Posix_OtaSendEvent mq m =
        some (OtaOsStatus.OtaOsSuccess, { mq with messages := mq.messages ++ [m] })) ∧
    (mq.nonblock = false → mq.mq_maxmsg ≤ mq.messages.length →
      Posix.Posix_OtaSendEvent mq m = none) := by
  refine ⟨fun h => ?_, fun h => ?_, fun h => ?_, fun hn h => ?_⟩
  · constructor <;>
      simp [V1.OtaSendEvent_FreeRTOS, Portable.OtaSendEvent_FreeRTOS,
        xQueueSendToBack, h]
  · have h2 : ¬ q.messages.length < q.capacity := by omega
    constructor <;>
      simp [V1.OtaSendEvent_FreeRTOS, Portable.OtaSendEvent_FreeRTOS,
        xQueueSendToBack, h2]
  · simp [Posix.Posix_OtaSendEvent, mq_send, h]
  · have h2 : ¬ mq.messages.length < mq.mq_maxmsg := by omega
    simp [Posix.Posix_OtaSendEvent, mq_send, h2, hn]

/-- Claim C7 (counterexample): after ten successful sends the POSIX queue is
full, and the eleventh send blocks (`none`): the producer gets no
queue-send-failed status back at all. -/
theorem posix_send_blocks_on_full_queue :
    Posix.sendListPosix Posix.Posix_OtaInitEvent (List.replicate 10 msgA) =
      some (List.replicate 10 OtaOsStatus.OtaOsSuccess, fullPosixMq) ∧
    Posix.Posix_OtaSendEvent fullPosixMq msgA = none := by
  exact ⟨rfl, rfl⟩

/-- Claim C2: ingesting a block whose index is at or beyond the total block
count of the transfer returns `IngestResultBlockOutOfRange` and leaves the
file context -- in particular the block bitmap and `blocksRemaining` --
unchanged. -/
theorem ingest_out_of_range_preserves_context (ctx : OtaFileContext)
    (blockIndex : Nat) (blockDataValid writeOk sigOk : Bool)
    (h : totalBlocks ctx ≤ blockIndex) :
    ingestDataBlock ctx blockIndex blockDataValid writeOk sigOk =
      (IngestResult.IngestResultBlockOutOfRange, ctx) := by
  simp [ingestDataBlock, h]

/-- Claim C2 (witness): for the 4-block sample context, block index 4 is out
of range, is rejected, and mutates nothing. -/
theorem ingest_out_of_range_preserves_context_witness :
    totalBlocks ctxEx ≤ 4 ∧
    ingestDataBlock ctxEx 4 true true true =
      (IngestResult.IngestResultBlockOutOfRange, ctxEx) :=
  ⟨by decide, ingest_out_of_range_preserves_context ctxEx 4 true true true (by decide)⟩

/-- Claim C9: a raw destination value strictly below the size of the
destination context record resolves to the context base plus that value (a
byte offset into the active context), and a value at or above the record
size is used as the absolute address itself. -/
theorem dest_offset_disambiguation (model : JsonDocModel) (destOffset : Nat) :
    (destOffset < model.contextSize →
      docModelParamToAddress model destOffset = model.contextBase + destOffset) ∧
    (model.contextSize ≤ destOffset →
      docModelParamToAddress model destOffset = destOffset) := by
  constructor
  · intro h
    simp [docModelParamToAddress, h]
  · intro h
    have h2 : ¬ destOffset < model.contextSize := by omega
    simp [docModelParamToAddress, h2]

/-- Claim C10: stopping a timer whose handle is NULL returns the success
code (`OTA_ERR_NONE` in the V1.2.0 port, `OtaOsSuccess` in the portable
port), while deleting a timer whose handle is NULL returns the
timer-delete-failed error (`OTA_ERR_EVENT_TIMER_DELETE_FAILED`,
`OtaOsTimerDeleteFailed`). -/
theorem stop_vs_delete_on_null_handle (s : FrTimerState) (id : OtaTimerId)
    (h : s.handleOf id = none) :
    (V1.OtaStopTimer_FreeRTOS s id).1 = OtaErr.OTA_ERR_NONE ∧
    (V1.ota_DeleteTimer s id).1 = OtaErr.OTA_ERR_EVENT_TIMER_DELETE_FAILED ∧
    Portable.OtaStopTimer_FreeRTOS false = OtaOsStatus.OtaOsSuccess ∧
    Portable.ota_DeleteTimer false = OtaOsStatus.OtaOsTimerDeleteFailed := by
  refine ⟨?_, ?_, rfl, rfl⟩ <;>
    cases id <;>
      simp_all [V1.OtaStopTimer_FreeRTOS, V1.ota_DeleteTimer, FrTimerState.handleOf]

/-- Claim C10 (witness): at program start both handles are NULL; stop on the
request timer succeeds, delete on it reports the delete failure. -/
theorem stop_vs_delete_on_null_handle_witness :
    (V1.OtaStopTimer_FreeRTOS initialFrTimerState OtaTimerId.OtaRequestTimer).1 =
      OtaErr.OTA_ERR_NONE ∧
    (V1.ota_DeleteTimer initialFrTimerState OtaTimerId.OtaRequestTimer).1 =
      OtaErr.OTA_ERR_EVENT_TIMER_DELETE_FAILED ∧
    Portable.OtaStopTimer_FreeRTOS false = OtaOsStatus.OtaOsSuccess ∧
    Portable.ota_DeleteTimer false = OtaOsStatus.OtaOsTimerDeleteFailed :=
  stop_vs_delete_on_null_handle initialFrTimerState OtaTimerId.OtaRequestTimer rfl

theorem sendList_ok (ms : List OtaEventMsg) :
    ∀ q : FreeRTOSQueue, q.messages.length + ms.length ≤ q.capacity →
      V1.sendList q ms =
        (List.replicate ms.length OtaErr.OTA_ERR_NONE,
          { q with messages := q.messages ++ ms }) := by
  induction ms with
  | nil => intro q h; simp [V1.sendList]
  | cons m ms ih =>
    intro q h
    have hlt : q.messages.length < q.capacity := by
      simp only [List.length_cons] at h
      omega
    have hsend : V1.OtaSendEvent_FreeRTOS q m =
        (OtaErr.OTA_ERR_NONE, { q with messages := q.messages ++ [m] }) := by
      simp [V1.OtaSendEvent_FreeRTOS, xQueueSendToBack, hlt]
    have h2 : ({ q with messages := q.messages ++ [m] } :
        FreeRTOSQueue).messages.length + ms.length ≤
        ({ q with messages := q.messages ++ [m] } : FreeRTOSQueue).capacity := by
      simp only [List.length_append, List.length_singleton, List.length_cons,
        List.length_nil] at h ⊢
      omega
    simp [V1.sendList, hsend, ih _ h2, List.replicate_succ]

theorem drainN_ok (ms : List OtaEventMsg) :
    ∀ (tail : List OtaEventMsg) (cap : Nat),
      V1.drainN { capacity := cap, messages := ms ++ tail } ms.length =
        some (ms, { capacity := cap, messages := tail }) := by
  induction ms with
  | nil => intro tail cap; simp [V1.drainN]
  | cons m ms ih =>
    intro tail cap
    simp [V1.drainN, V1.OtaReceiveEvent_FreeRTOS, xQueueReceive, ih tail cap]

theorem sendListPosix_ok (ms : List OtaEventMsg) :
    ∀ q : PosixMq, q.messages.length + ms.length ≤ q.mq_maxmsg →
      Posix.sendListPosix q ms =
        some (List.replicate ms.length OtaOsStatus.OtaOsSuccess,
          { q with messages := q.messages ++ ms }) := by
  induction ms with
  | nil => intro q h; simp [Posix.sendListPosix]
  | cons m ms ih =>
    intro q h
    have hlt : q.messages.length < q.mq_maxmsg := by
      simp only [List.length_cons] at h
      omega
    have hsend : Posix.Posix_OtaSendEvent q m =
        some (OtaOsStatus.OtaOsSuccess, { q with messages := q.messages ++ [m] }) := by
      simp [Posix.Posix_OtaSendEvent, mq_send, hlt]
    have h2 : ({ q with messages := q.messages ++ [m] } :
        PosixMq).messages.length + ms.length ≤
        ({ q with messages := q.messages ++ [m] } : PosixMq).mq_maxmsg := by
      simp only [List.length_append, List.length_singleton, List.length_cons,
        List.length_nil] at h ⊢
      omega
    simp [Posix.sendListPosix, hsend, ih _ h2, List.replicate_succ]

theorem drainNPosix_ok (ms : List OtaEventMsg) :
    ∀ (tail : List OtaEventMsg) (cap : Nat) (nb : Bool),
      Posix.drainNPosix { mq_maxmsg := cap, nonblock := nb, messages := ms ++ tail }
          ms.length =
        some (ms, { mq_maxmsg := cap, nonblock := nb, messages := tail }) := by
  induction ms with
  | nil => intro tail cap nb; simp [Posix.drainNPosix]
  | cons m ms ih =>
    intro tail cap nb
    simp [Posix.drainNPosix, Posix.Posix_OtaReceiveEvent, mq_receive, ih tail cap nb]

/-- Claim C8: both event queues are FIFO with blocking receive: sending any
list of messages (within capacity) succeeds send by send, and the successive
receives then return success with exactly the sent fixed-size messages in
the order they were sent, restoring the empty queue; a receive on the empty
queue does not return -- the consumer stays suspended until an event is
available. -/
theorem queue_fifo_roundtrip (ms : List OtaEventMsg)
    (h : ms.length ≤ MAX_MESSAGES) :
    V1.sendList V1.OtaInitEvent_FreeRTOS ms =
      (List.replicate ms.length OtaErr.OTA_ERR_NONE,
        { capacity := MAX_MESSAGES, messages := ms }) ∧
    V1.drainN { capacity := MAX_MESSAGES, messages := ms } ms.length =
      some (ms, V1.OtaInitEvent_FreeRTOS) ∧
    V1.OtaReceiveEvent_FreeRTOS V1.OtaInitEvent_FreeRTOS = none ∧
    Posix.sendListPosix Posix.Posix_OtaInitEvent ms =
      some (List.replicate ms.length OtaOsStatus.OtaOsSuccess,
        { mq_maxmsg := MAX_MESSAGES, nonblock := false, messages := ms }) ∧
    Posix.drainNPosix
        { mq_maxmsg := MAX_MESSAGES, nonblock := false, messages := ms } ms.length =
      some (ms, Posix.Posix_OtaInitEvent) ∧
    Posix.Posix_OtaReceiveEvent Posix.Posix_OtaInitEvent = none := by
  refine ⟨?_, ?_, rfl, ?_, ?_, rfl⟩
  · have := sendList_ok ms V1.OtaInitEvent_FreeRTOS
      (by simpa [V1.OtaInitEvent_FreeRTOS, xQueueCreateStatic] using h)
    simpa [V1.OtaInitEvent_FreeRTOS, xQueueCreateStatic] using this
  · have := drainN_ok ms [] MAX_MESSAGES
    simpa [V1.OtaInitEvent_FreeRTOS, xQueueCreateStatic] using this
  · have := sendListPosix_ok ms Posix.Posix_OtaInitEvent
      (by simpa [Posix.Posix_OtaInitEvent] using h)
    simpa [Posix.Posix_OtaInitEvent] using this
  · have := drainNPosix_ok ms [] MAX_MESSAGES false
    simpa [Posix.Posix_OtaInitEvent] using this

/-- Claim C8 (witness): the two sample messages round-trip through both
queues in order. -/
theorem queue_fifo_roundtrip_witness :
    V1.sendList V1.OtaInitEvent_FreeRTOS [msgA, msgB] =
      (List.replicate [msgA, msgB].length OtaErr.OTA_ERR_NONE,
        { capacity := MAX_MESSAGES, messages := [msgA, msgB] }) ∧
    V1.drainN { capacity := MAX_MESSAGES, messages := [msgA, msgB] }
        [msgA, msgB].length = some ([msgA, msgB], V1.OtaInitEvent_FreeRTOS) ∧
    V1.OtaReceiveEvent_FreeRTOS V1.OtaInitEvent_FreeRTOS = none ∧
    Posix.sendListPosix Posix.Posix_OtaInitEvent [msgA, msgB] =
      some (List.replicate [msgA, msgB].length OtaOsStatus.OtaOsSuccess,
        { mq_maxmsg := MAX_MESSAGES, nonblock := false, messages := [msgA, msgB] }) ∧
    Posix.drainNPosix
        { mq_maxmsg := MAX_MESSAGES, nonblock := false, messages := [msgA, msgB] }
        [msgA, msgB].length = some ([msgA, msgB], Posix.Posix_OtaInitEvent) ∧
    Posix.Posix_OtaReceiveEvent Posix.Posix_OtaInitEvent = none :=
  queue_fifo_roundtrip [msgA, msgB] (by decide)

theorem testBit_one_eq (j : Nat) : (1 : Nat).testBit j = decide (j = 0) := by
  have h := Nat.testBit_two_pow (n := 0) (m := j)
  simp only [pow_zero] at h
  rw [h]
  simp [eq_comm]

theorem testBit_shiftLeft_one_zero (m : Nat) : (m <<< 1).testBit 0 = false := by
  simp [Nat.testBit_shiftLeft]

theorem testBit_shiftLeft_one_succ (m j : Nat) :
    (m <<< 1).testBit (j + 1) = m.testBit j := by
  simp [Nat.testBit_shiftLeft]

theorem testBit_requiredBitmapOf (l : List JsonDocParam) :
    ∀ j : Nat, (requiredBitmapOf l).testBit j = true ↔
      (j < l.length ∧ (paramAt l j).required = true) := by
  induction l with
  | nil =>
    intro j
    simp [requiredBitmapOf, Nat.zero_testBit]
  | cons p ps ih =>
    intro j
    cases j with
    | zero =>
      rw [requiredBitmapOf, Nat.testBit_or, testBit_shiftLeft_one_zero]
      cases hp : p.required <;>
        simp [hp, testBit_one_eq, paramAt, Nat.zero_testBit]
    | succ j =>
      rw [requiredBitmapOf, Nat.testBit_or, testBit_shiftLeft_one_succ]
      have hone : (if p.required then (1 : Nat) else 0).testBit (j + 1) = false := by
        cases hp : p.required <;> simp [testBit_one_eq, Nat.zero_testBit]
      rw [hone, Bool.false_or, ih j]
      simp [paramAt, List.getD_cons_succ, Nat.succ_lt_succ_iff]

theorem testBit_one_shiftLeft (i j : Nat) :
    ((1 <<< i : Nat).testBit j = true) ↔ j = i := by
  rw [Nat.one_shiftLeft, Nat.testBit_two_pow]
  simp [eq_comm]

theorem scanDocument_ok (ps : List JsonDocParam) :
    ∀ (doc : List (String × JsonValue)) (received : Nat),
      matchesWellTyped ps doc = true →
      nodupB (matchedIndices ps doc) = true →
      (∀ j, j ∈ matchedIndices ps doc → received.testBit j = false) →
      ∃ r, scanDocument ps received doc = Except.ok r ∧
        ∀ j, (r.testBit j = true ↔
          (received.testBit j = true ∨ j ∈ matchedIndices ps doc)) := by
  intro doc
  induction doc with
  | nil =>
    intro received _ _ _
    exact ⟨received, rfl, by simp [matchedIndices]⟩
  | cons kv rest ih =>
    intro received hwt hnd hdisj
    have hwt2 := hwt
    simp only [matchesWellTyped, List.all_cons, Bool.and_eq_true] at hwt2
    obtain ⟨hhead, htail⟩ := hwt2
    cases hm : matchedIdx ps kv.1 with
    | none =>
      have hmi : matchedIndices ps (kv :: rest) = matchedIndices ps rest := by
        simp [matchedIndices, List.filterMap_cons, hm]
      rw [hmi] at hnd hdisj
      have hstep : scanDocument ps received (kv :: rest) =
          scanDocument ps received rest := by
        simp [scanDocument, hm]
      rw [hstep]
      obtain ⟨r, h1, h2⟩ := ih received htail hnd hdisj
      exact ⟨r, h1, fun j => by rw [hmi]; exact h2 j⟩
    | some i =>
      rw [hm] at hhead
      simp only [Bool.and_eq_true] at hhead
      obtain ⟨htc, hex⟩ := hhead
      have hexn : extractValue (paramAt ps i).modelParamType kv.2 = none :=
        Option.isNone_iff_eq_none.1 hex
      have hmi : matchedIndices ps (kv :: rest) = i :: matchedIndices ps rest := by
        simp [matchedIndices, List.filterMap_cons, hm]
      rw [hmi] at hnd hdisj
      simp only [nodupB, Bool.and_eq_true, Bool.not_eq_true'] at hnd
      obtain ⟨hcont, hndrest⟩ := hnd
      have hi_notmem : i ∉ matchedIndices ps rest := by
        simpa using hcont
      have hrecv_i : received.testBit i = false :=
        hdisj i (List.mem_cons_self i (matchedIndices ps rest))
      have hstep : scanDocument ps received (kv :: rest) =
          scanDocument ps (received ||| (1 <<< i)) rest := by
        simp [scanDocument, hm, htc, hrecv_i, hexn]
      rw [hstep]
      have hdisj2 : ∀ j, j ∈ matchedIndices ps rest →
          (received ||| (1 <<< i)).testBit j = false := by
        intro j hj
        have hne : j ≠ i := fun he => hi_notmem (he ▸ hj)
        rw [Nat.testBit_or, hdisj j (List.mem_cons_of_mem i hj), Bool.false_or]
        cases hb : (1 <<< i : Nat).testBit j with
        | false => rfl
        | true => exact absurd ((testBit_one_shiftLeft i j).1 hb) hne
      obtain ⟨r, hsc, hbits⟩ := ih (received ||| (1 <<< i)) htail hndrest hdisj2
      refine ⟨r, hsc, fun j => ?_⟩
      rw [hbits j, hmi, Nat.testBit_or, Bool.or_eq_true, testBit_one_shiftLeft,
        List.mem_cons]
      tauto

/-- Claim C1 (amended): for every document model (within the 32-descriptor
bound) whose received bitmap starts at zero, and every document in which each
required descriptor is matched by some field, every field that matches a
descriptor is type-correct and extracts cleanly, and no two fields resolve
to the same descriptor, the parse succeeds and the required bitmap is
covered by the received bitmap: `required AND received = required`. -/
theorem parse_success_covers_required (base size : Nat)
    (body : List JsonDocParam) (doc : List (String × JsonValue))
    (hlen : body.length ≤ OTA_DOC_MODEL_MAX_PARAMS)
    (hcov : requiredCovered body doc = true)
    (hwt : matchesWellTyped body doc = true)
    (hnd : nodupB (matchedIndices body doc) = true) :
    ∃ m : JsonDocModel,
      parseJSONbyModel (initDocModel base size body) doc = Except.ok m ∧
      m.paramsRequiredBitmap &&& m.paramsReceivedBitmap = m.paramsRequiredBitmap := by
  obtain ⟨r, hscan, hbits⟩ :=
    scanDocument_ok body doc 0 hwt hnd (fun j _ => Nat.zero_testBit j)
  have hsub : requiredBitmapOf body &&& r = requiredBitmapOf body := by
    apply Nat.eq_of_testBit_eq
    intro j
    rw [Nat.testBit_and]
    cases hrb : (requiredBitmapOf body).testBit j with
    | false => simp
    | true =>
      obtain ⟨hj, hreq⟩ := (testBit_requiredBitmapOf body j).1 hrb
      have hcov2 := hcov
      simp only [requiredCovered, List.all_eq_true, List.mem_range] at hcov2
      have h3 := hcov2 j hj
      rw [hreq] at h3
      simp only [Bool.not_true, Bool.false_or, List.any_eq_true] at h3
      obtain ⟨kv, hkvmem, hkvmatch⟩ := h3
      have hkv2 : matchedIdx body kv.1 = some j := by
        simpa using hkvmatch
      have hmem : j ∈ matchedIndices body doc :=
        List.mem_filterMap.2 ⟨kv, hkvmem, hkv2⟩
      rw [(hbits j).2 (Or.inr hmem)]
      simp
  refine ⟨{ contextBase := base, contextSize := size, pBodyDef := body,
            paramsReceivedBitmap := r,
            paramsRequiredBitmap := requiredBitmapOf body }, ?_, ?_⟩
  · rw [parseJSONbyModel]
    have hnotlt :
        ¬ OTA_DOC_MODEL_MAX_PARAMS < (initDocModel base size body).pBodyDef.length := by
      simp only [initDocModel]
      omega
    rw [if_neg hnotlt]
    show (match scanDocument body 0 doc with
      | Except.error e => Except.error e
      | Except.ok received =>
        if requiredBitmapOf body &&& received = requiredBitmapOf body then
          Except.ok { initDocModel base size body with paramsReceivedBitmap := received }
        else
          Except.error DocParseErr.DocParseErrMalformedDoc) = _
    rw [hscan]
    simp only [hsub, if_pos]
    rfl
  · simpa using hsub

/-- Claim C1 (witness): the sample job model with two required fields parses
the sample document, and the required bitmap is covered. -/
theorem parse_success_covers_required_witness :
    ∃ m : JsonDocModel,
      parseJSONbyModel (initDocModel 0 100 okBody) okDoc = Except.ok m ∧
      m.paramsRequiredBitmap &&& m.paramsReceivedBitmap = m.paramsRequiredBitmap :=
  parse_success_covers_required 0 100 okBody okDoc (by decide) (by decide)
    (by decide) (by decide)

/-- Claim C1 (counterexample): a document in which every required field is
present and type-correct, but which also carries an optional model field
with a value of the wrong type, fails to parse -- so the claim as stated
(success whenever the required fields are present and type-correct) does not
hold. -/
theorem parse_fails_on_illtyped_optional_field :
    requiredPresentAndTypeCorrect cexBody cexDoc = true ∧
    parseJSONbyModel (initDocModel 0 100 cexBody) cexDoc =
      Except.error DocParseErr.DocParseErrFieldTypeMismatch :=
  ⟨rfl, rfl⟩
